import Mathlib

/-!
Verification of the PocketGNU service worker (cache strategy dispatcher).

The definitions below are a shallow embedding of the service-worker source:
URLs are strings, responses are records, the cache/network environment of a
single request is passed explicitly, and the process-wide performance
monitor together with the observable side effects (cache writes, actual
network fetches) is threaded as explicit state.
-/

namespace SW

/-- The five named cache strategies (the values of CACHE_STRATEGIES). -/
inductive Strategy where
  | cacheFirst
  | networkFirst
  | staleWhileRevalidate
  | networkOnly
  | cacheOnly
deriving DecidableEq, Repr

/-- Cache partition name STATIC_CACHE. -/
def STATIC_CACHE : String := "pocketgnu-static-v1.0.0"

/-- Cache partition name DYNAMIC_CACHE. -/
def DYNAMIC_CACHE : String := "pocketgnu-dynamic-v1.0.0"

/-- Critical resources cached at install time (CRITICAL_RESOURCES). -/
def CRITICAL_RESOURCES : List String :=
  ["/", "/index.html", "/css/critical.css", "/js/errorHandler.js",
   "/js/utils.js", "/js/scripts.js"]

/-- Non-critical resources preloaded best-effort (STATIC_RESOURCES). -/
def STATIC_RESOURCES : List String :=
  ["/css/styles.css",
   "https://fonts.googleapis.com/css2?family=Inter:wght@300;400;500;600;700&display=swap"]

/-- Suffix test on strings, computed on the underlying character lists
(an anchored `...$` regex). -/
def strEndsWith (s suffix : String) : Bool :=
  suffix.data.isSuffixOf s.data

/-- Anchored prefix test on strings, computed on the underlying character
lists (an anchored `^...` regex). -/
def strStartsWith (s p : String) : Bool :=
  p.data.isPrefixOf s.data

/-- Embedding of the regex `\.(?:js|css)$`. -/
def matchesJsCss (url : String) : Bool :=
  strEndsWith url ".js" || strEndsWith url ".css"

/-- Embedding of the regex `\.(?:png|jpg|jpeg|svg|gif|webp)$`. -/
def matchesImage (url : String) : Bool :=
  strEndsWith url ".png" || strEndsWith url ".jpg" || strEndsWith url ".jpeg" ||
  strEndsWith url ".svg" || strEndsWith url ".gif" || strEndsWith url ".webp"

/-- Embedding of the regex `^https://fonts.googleapis.com`. -/
def matchesFontsGoogleapis (url : String) : Bool :=
  strStartsWith url "https://fonts.googleapis.com"

/-- Embedding of the regex `^https://fonts.gstatic.com`. -/
def matchesFontsGstatic (url : String) : Bool :=
  strStartsWith url "https://fonts.gstatic.com"

/-- The ordered pattern list CACHE_PATTERNS: each regex is embedded as a
boolean test on the URL string, paired with its strategy. -/
def CACHE_PATTERNS : List ((String → Bool) × Strategy) :=
  [(matchesJsCss, .staleWhileRevalidate),
   (matchesImage, .cacheFirst),
   (matchesFontsGoogleapis, .staleWhileRevalidate),
   (matchesFontsGstatic, .cacheFirst)]

/-- The for-loop body of getCacheStrategy: walk the pattern list in order,
return the strategy of the first pattern that tests true on the URL, and
fall through to network-first when none does. -/
def findStrategy (url : String) : List ((String → Bool) × Strategy) → Strategy
  | [] => .networkFirst
  | p :: rest => if p.1 url then p.2 else findStrategy url rest

/-- getCacheStrategy from the source: first matching pattern in
CACHE_PATTERNS wins, default is network-first. -/
def getCacheStrategy (url : String) : Strategy :=
  findStrategy url CACHE_PATTERNS

/-- A response snapshot: status line and body. `new Response('Network error',
{status: 408, statusText: 'Request Timeout'})` is embedded as an explicit
record. -/
structure Response where
  status : Nat
  statusText : String
  body : String
deriving DecidableEq, Repr

/-- The `response.ok` getter: true exactly for 2xx-class statuses. -/
def Response.isOk (r : Response) : Bool :=
  200 ≤ r.status && r.status < 300

/-- The metrics object of PerformanceMonitor. -/
structure Metrics where
  cacheHits : Nat
  cacheMisses : Nat
  networkRequests : Nat
  errors : Nat
deriving DecidableEq, Repr

/-- Observable worker state threaded through a request: the monitor's
counters, the log of cache writes performed (partition name, request URL,
response written, in order), and the number of actual `fetch` calls
issued. -/
structure SWState where
  metrics : Metrics
  writes : List (String × String × Response)
  fetches : Nat
deriving DecidableEq, Repr

/-- PerformanceMonitor.recordCacheHit. -/
def recordCacheHit (s : SWState) : SWState :=
  { s with metrics := { s.metrics with cacheHits := s.metrics.cacheHits + 1 } }

/-- PerformanceMonitor.recordCacheMiss. -/
def recordCacheMiss (s : SWState) : SWState :=
  { s with metrics := { s.metrics with cacheMisses := s.metrics.cacheMisses + 1 } }

/-- PerformanceMonitor.recordNetworkRequest. -/
def recordNetworkRequest (s : SWState) : SWState :=
  { s with metrics := { s.metrics with networkRequests := s.metrics.networkRequests + 1 } }

/-- PerformanceMonitor.recordError. -/
def recordError (s : SWState) : SWState :=
  { s with metrics := { s.metrics with errors := s.metrics.errors + 1 } }

/-- cache.put(request, response) on a named partition: append to the write
log. -/
def cachePut (name url : String) (r : Response) (s : SWState) : SWState :=
  { s with writes := s.writes ++ [(name, url, r)] }

/-- The environment a single request executes against: the result of
`caches.match(request)` and the outcome of `fetch(request)` (a rejection is
an error message). -/
structure Env where
  cached : Option Response
  fetchResult : Except String Response
deriving Repr

/-- Issue `fetch(request)`: the call itself is counted in the state, and
its outcome comes from the environment. -/
def doFetch (env : Env) (s : SWState) : Except String Response × SWState :=
  (env.fetchResult, { s with fetches := s.fetches + 1 })

/-- cacheFirst from the source: serve the cached entry when present
(recording a hit); otherwise record miss and network request, await the
fetch (a rejection propagates), persist a 2xx response into the dynamic
partition, and return the network response. -/
def cacheFirst (env : Env) (url : String) (s : SWState) :
    Except String Response × SWState :=
  match env.cached with
  | some c => (.ok c, recordCacheHit s)
  | none =>
    let s := recordCacheMiss s
    let s := recordNetworkRequest s
    match doFetch env s with
    | (.error e, s) => (.error e, s)
    | (.ok r, s) =>
      if r.isOk then (.ok r, cachePut DYNAMIC_CACHE url r s)
      else (.ok r, s)

/-- networkFirst from the source: record a network request and try the
fetch; on success persist a 2xx response into the dynamic partition and
return it; on rejection fall back to the cached entry when present
(recording a hit), else record a miss and rethrow. -/
def networkFirst (env : Env) (url : String) (s : SWState) :
    Except String Response × SWState :=
  let s := recordNetworkRequest s
  match doFetch env s with
  | (.ok r, s) =>
    if r.isOk then (.ok r, cachePut DYNAMIC_CACHE url r s)
    else (.ok r, s)
  | (.error e, s) =>
    match env.cached with
    | some c => (.ok c, recordCacheHit s)
    | none => (.error e, recordCacheMiss s)

/-- The fetchPromise of staleWhileRevalidate: fetch, persist a 2xx
response into the dynamic partition, and — because of the attached catch —
resolve with null (none) instead of rejecting when the fetch fails. -/
def swrFetchPromise (env : Env) (url : String) (s : SWState) :
    Option Response × SWState :=
  match doFetch env s with
  | (.ok r, s) =>
    if r.isOk then (some r, cachePut DYNAMIC_CACHE url r s)
    else (some r, s)
  | (.error _, s) => (none, s)

/-- staleWhileRevalidate from the source: the fetchPromise is always
started; with a cached entry present, record a hit and return the cached
entry while the background fetch completes unawaited; with no cached
entry, record miss and network request and return whatever the
fetchPromise resolves with (null when the fetch failed, since its
rejection was caught). -/
def staleWhileRevalidate (env : Env) (url : String) (s : SWState) :
    Except String (Option Response) × SWState :=
  match env.cached with
  | some c =>
    let (_, s) := swrFetchPromise env url s
    (.ok (some c), recordCacheHit s)
  | none =>
    let s := recordCacheMiss s
    let s := recordNetworkRequest s
    let (res, s) := swrFetchPromise env url s
    (.ok res, s)

/-- cacheOnly from the source: serve the cached entry when present
(recording a hit); otherwise record a miss and throw
`Error('Resource not in cache')`. No fetch is issued and nothing is
written. -/
def cacheOnly (env : Env) (s : SWState) : Except String Response × SWState :=
  match env.cached with
  | some c => (.ok c, recordCacheHit s)
  | none => (.error "Resource not in cache", recordCacheMiss s)

/-- networkOnly from the source: record a network request and return the
fetch outcome unchanged. -/
def networkOnly (env : Env) (s : SWState) : Except String Response × SWState :=
  let s := recordNetworkRequest s
  doFetch env s

/-- handleRequest from the source: dispatch on the strategy tag. The
strategies that always produce a Response are lifted into the
Option-valued result type that staleWhileRevalidate forces (it can resolve
with null). -/
def handleRequest (env : Env) (url : String) (strategy : Strategy)
    (s : SWState) : Except String (Option Response) × SWState :=
  match strategy with
  | .cacheFirst =>
    let (r, s) := cacheFirst env url s
    (r.map some, s)
  | .networkFirst =>
    let (r, s) := networkFirst env url s
    (r.map some, s)
  | .staleWhileRevalidate => staleWhileRevalidate env url s
  | .cacheOnly =>
    let (r, s) := cacheOnly env s
    (r.map some, s)
  | .networkOnly =>
    let (r, s) := networkOnly env s
    (r.map some, s)

/-- A request as seen by the fetch event listener. -/
structure Request where
  method : String
  url : String
deriving DecidableEq, Repr

/-- The protocol component of `new URL(url)`: the scheme up to and
including the first colon. -/
def urlProtocol (url : String) : String :=
  ⟨(url.data.takeWhile (fun c => c != ':')) ++ [':']⟩

/-- The synthetic response built by the fetch listener's outer catch:
`new Response('Network error', {status: 408, statusText: 'Request Timeout'})`. -/
def timeoutResponse : Response :=
  { status := 408, statusText := "Request Timeout", body := "Network error" }

/-- The fetch event listener: ignore non-GET and non-http(s) requests
(returning no response, none); otherwise classify the URL, run the
strategy handler, and convert a rejection at the outer boundary into the
synthetic 408 response while recording the error. -/
def handleFetchEvent (env : Env) (req : Request) (s : SWState) :
    Option (Except String (Option Response)) × SWState :=
  if req.method != "GET" then (none, s)
  else if !strStartsWith (urlProtocol req.url) "http" then (none, s)
  else
    let strategy := getCacheStrategy req.url
    match handleRequest env req.url strategy s with
    | (.ok r, s) => (some (.ok r), s)
    | (.error _, s) => (some (.ok (some timeoutResponse)), recordError s)

/-- Environment for the install event: the outcome of `cache.add(url)`
for each URL (critical ones cached via addAll on the static partition,
non-critical ones added individually on the dynamic partition). -/
structure InstallEnv where
  cacheAdd : String → Except String Unit

/-- cache.addAll(urls): rejects with the first failing add, succeeds when
every add succeeds. -/
def addAll (env : InstallEnv) : List String → Except String Unit
  | [] => .ok ()
  | u :: rest =>
    match env.cacheAdd u with
    | .error e => .error e
    | .ok _ => addAll env rest

/-- What the install event's waitUntil promise does. `result` is the
settlement of the promise handed to `event.waitUntil` (ok means
fulfilled, so installation succeeds); `errorsRecorded` counts
recordError calls; `skipWaitingCalled` tells whether self.skipWaiting
ran. -/
structure InstallOutcome where
  result : Except String Unit
  errorsRecorded : Nat
  skipWaitingCalled : Bool
deriving Repr

/-- The install event listener: Promise.all of (a) addAll of
CRITICAL_RESOURCES into the static partition and (b) allSettled of the
non-critical adds, each with an individual catch, so (b) never rejects.
On success the then-branch calls skipWaiting; on failure the trailing
catch records the error and resolves with undefined — so the promise
handed to waitUntil fulfills either way. -/
def installHandler (env : InstallEnv) : InstallOutcome :=
  match addAll env CRITICAL_RESOURCES with
  | .ok _ =>
    { result := .ok (), errorsRecorded := 0, skipWaitingCalled := true }
  | .error _ =>
    -- the catch consumes the rejection: waitUntil sees a fulfilled promise
    { result := .ok (), errorsRecorded := 1, skipWaitingCalled := false }

/-- An entry of the dynamic partition as the cleanup pass sees it:
request URL plus the value of `response.headers.get('date')` (none when
the header is absent). -/
structure CacheEntry where
  url : String
  dateHeader : Option String
deriving DecidableEq, Repr

/-- maxAge from performCacheCleanup: 7 days in milliseconds. -/
def maxAge : Int := 7 * 24 * 60 * 60 * 1000

/-- The freshness timestamp the cleanup pass extracts from an entry:
none when the date header is absent, is the empty string (falsy, so the
`if (dateHeader)` guard skips it), or does not parse to a date (NaN).
The date parser is a parameter, as JS Date parsing is environmental. -/
def freshnessTimestamp (parse : String → Option Int) (e : CacheEntry) :
    Option Int :=
  match e.dateHeader with
  | none => none
  | some d => if d = "" then none else parse d

/-- The per-entry deletion test inside performCacheCleanup: an entry is
deleted exactly when it has a usable timestamp and `now - responseDate >
maxAge` (a NaN timestamp makes the comparison false, so the entry is
kept). -/
def isExpired (parse : String → Option Int) (now : Int) (e : CacheEntry) :
    Bool :=
  match freshnessTimestamp parse e with
  | none => false
  | some t => decide (now - t > maxAge)

/-- performCacheCleanup from the source, as the resulting content of the
dynamic partition: every entry the per-entry pass deleted is gone, the
rest remain. -/
def performCacheCleanup (parse : String → Option Int) (now : Int)
    (entries : List CacheEntry) : List CacheEntry :=
  entries.filter (fun e => !isExpired parse now e)

/-- One record of a PREFETCH_RESOURCES reply. -/
structure PrefetchResult where
  url : String
  success : Bool
  error : Option String
deriving DecidableEq, Repr

/-- prefetchResources from the source: allSettled over `cache.add(url)`
for each URL, then per-index records (url, fulfilled?, rejection message
or null). `add` gives each URL's cache-add outcome. -/
def prefetchResources (add : String → Except String Unit)
    (urls : List String) : List PrefetchResult :=
  urls.map (fun u =>
    match add u with
    | .ok _ => { url := u, success := true, error := none }
    | .error e => { url := u, success := false, error := some e })

/-- A reply posted on the message port by the message event listener. -/
inductive Reply where
  | metricsResponse (payload : Metrics)
  | cacheCleared (success : Bool) (error : Option String)
  | prefetchComplete (results : List PrefetchResult)
deriving DecidableEq, Repr

/-- The payload of an incoming message, as the listener inspects it: an
object that may or may not carry a urls field. -/
structure MessagePayload where
  urls : Option (List String)
deriving DecidableEq, Repr

/-- Environment for the message event listener: current metrics, the
outcome of clearAllCaches, and the cache-add outcome for prefetch. -/
structure MsgEnv where
  metrics : Metrics
  clearResult : Except String Unit
  cacheAdd : String → Except String Unit

/-- The message event listener: switch on the message type. GET_METRICS
and CLEAR_CACHE always post a reply; PREFETCH_RESOURCES posts a
PREFETCH_COMPLETE reply only inside the `if (payload && payload.urls)`
guard — when the payload is absent or has no urls field, nothing is
posted; unknown types only log. The result is the reply posted on the
port, none when no reply is posted. -/
def messageHandler (env : MsgEnv) (type : String)
    (payload : Option MessagePayload) : Option Reply :=
  if type = "GET_METRICS" then
    some (.metricsResponse env.metrics)
  else if type = "CLEAR_CACHE" then
    match env.clearResult with
    | .ok _ => some (.cacheCleared true none)
    | .error e => some (.cacheCleared false (some e))
  else if type = "PREFETCH_RESOURCES" then
    match payload with
    | none => none
    | some p =>
      match p.urls with
      | none => none
      | some urls => some (.prefetchComplete (prefetchResources env.cacheAdd urls))
  else none

/-- Environment used as a concrete failing input for the install event:
caching '/index.html' (a critical resource) rejects, every other add
succeeds. -/
def failingInstallEnv : InstallEnv :=
  ⟨fun u => if u = "/index.html" then .error "Failed to fetch" else .ok ()⟩

/-- Concrete cache-add outcome used to exercise prefetchResources:
'/bad-url' rejects, everything else succeeds. -/
def prefetchAddEx : String → Except String Unit :=
  fun u => if u = "/bad-url" then .error "Failed to fetch" else .ok ()

theorem findStrategy_eq_find? (url : String)
    (l : List ((String → Bool) × Strategy)) :
    findStrategy url l =
      ((l.find? (fun p => p.1 url)).map Prod.snd).getD Strategy.networkFirst := by
  induction l with
  | nil => rfl
  | cons p rest ih =>
    by_cases h : p.1 url
    · simp [findStrategy, List.find?_cons, h]
    · simp [findStrategy, List.find?_cons, h, ih]

/-- C1: for every request URL, the strategy assigned by getCacheStrategy
is the strategy of the first (pattern, strategy) pair of CACHE_PATTERNS
whose pattern matches the URL, and is network-first whenever no pattern
in the list matches. -/
theorem getCacheStrategy_first_match (url : String) :
    getCacheStrategy url =
      ((CACHE_PATTERNS.find? (fun p => p.1 url)).map Prod.snd).getD
        Strategy.networkFirst ∧
    ((∀ p ∈ CACHE_PATTERNS, p.1 url = false) →
      getCacheStrategy url = Strategy.networkFirst) := by
  constructor
  · exact findStrategy_eq_find? url CACHE_PATTERNS
  · intro h
    have hn : CACHE_PATTERNS.find? (fun p => p.1 url) = none := by
      rw [List.find?_eq_none]
      intro p hp
      simp [h p hp]
    rw [getCacheStrategy, findStrategy_eq_find?, hn]
    rfl

/-- Witness for C1: a URL matching no pattern is assigned network-first. -/
theorem getCacheStrategy_first_match_witness :
    getCacheStrategy "https://example.org/page" = Strategy.networkFirst :=
  (getCacheStrategy_first_match "https://example.org/page").2 (by
    intro p hp
    fin_cases hp <;> decide)

/-- C2: under cache-first with no cached entry and a successful (2xx)
network response, exactly one cache write occurs, into the dynamic
partition; the returned response is the network response; one cache miss
and one network request are recorded; hits and errors are unchanged. -/
theorem cacheFirst_miss_success (env : Env) (url : String) (s : SWState)
    (r : Response)
    (hc : env.cached = none) (hf : env.fetchResult = .ok r)
    (hok : r.isOk = true) :
    cacheFirst env url s =
      (.ok r,
       { metrics := { s.metrics with
           cacheMisses := s.metrics.cacheMisses + 1,
           networkRequests := s.metrics.networkRequests + 1 },
         writes := s.writes ++ [(DYNAMIC_CACHE, url, r)],
         fetches := s.fetches + 1 }) := by
  simp [cacheFirst, hc, doFetch, hf, hok, recordCacheMiss,
    recordNetworkRequest, cachePut]

/-- Witness for C2 at a concrete empty-cache environment with a 200
response. -/
theorem cacheFirst_miss_success_witness :
    cacheFirst ⟨none, .ok ⟨200, "OK", "hello"⟩⟩ "/img.png"
      ⟨⟨0, 0, 0, 0⟩, [], 0⟩ =
      (.ok ⟨200, "OK", "hello"⟩,
       ⟨⟨0, 1, 1, 0⟩, [(DYNAMIC_CACHE, "/img.png", ⟨200, "OK", "hello"⟩)], 1⟩) :=
  cacheFirst_miss_success ⟨none, .ok ⟨200, "OK", "hello"⟩⟩ "/img.png"
    ⟨⟨0, 0, 0, 0⟩, [], 0⟩ ⟨200, "OK", "hello"⟩ rfl rfl rfl

/-- C3: under network-first with a failing network fetch: with a cached
entry present the handler returns the cached entry, records a cache hit
and throws no error; with no cached entry it records a cache miss and
propagates the failure. In both cases nothing is written to any cache. -/
theorem networkFirst_network_failure (env : Env) (url : String)
    (s : SWState) (e : String) (hf : env.fetchResult = .error e) :
    (∀ c, env.cached = some c →
      networkFirst env url s =
        (.ok c,
         { metrics := { s.metrics with
             cacheHits := s.metrics.cacheHits + 1,
             networkRequests := s.metrics.networkRequests + 1 },
           writes := s.writes,
           fetches := s.fetches + 1 })) ∧
    (env.cached = none →
      networkFirst env url s =
        (.error e,
         { metrics := { s.metrics with
             cacheMisses := s.metrics.cacheMisses + 1,
             networkRequests := s.metrics.networkRequests + 1 },
           writes := s.writes,
           fetches := s.fetches + 1 })) := by
  constructor
  · intro c hc
    simp [networkFirst, doFetch, hf, hc, recordNetworkRequest, recordCacheHit]
  · intro hc
    simp [networkFirst, doFetch, hf, hc, recordNetworkRequest, recordCacheMiss]

/-- Witness for C3 at a concrete unreachable-network environment with a
present cache entry. -/
theorem networkFirst_network_failure_witness :
    networkFirst ⟨some ⟨200, "OK", "cached"⟩, .error "net down"⟩ "/page"
      ⟨⟨0, 0, 0, 0⟩, [], 0⟩ =
      (.ok ⟨200, "OK", "cached"⟩, ⟨⟨1, 0, 1, 0⟩, [], 1⟩) :=
  (networkFirst_network_failure ⟨some ⟨200, "OK", "cached"⟩, .error "net down"⟩
    "/page" ⟨⟨0, 0, 0, 0⟩, [], 0⟩ "net down" rfl).1 ⟨200, "OK", "cached"⟩ rfl

/-- C4 (against the claim): with no cached entry and a failing network
fetch, staleWhileRevalidate does NOT surface the failure: the attached
catch converts the rejection into a fulfilled result carrying null
(ok none), while the cache miss and network request are recorded. -/
theorem swr_no_cache_network_failure_swallowed :
    staleWhileRevalidate ⟨none, .error "Failed to fetch"⟩ "/app.js"
      ⟨⟨0, 0, 0, 0⟩, [], 0⟩ =
      (.ok none, ⟨⟨0, 1, 1, 0⟩, [], 1⟩) := by
  rfl

/-- C5: under cache-only with no cached entry, the call fails with the
error 'Resource not in cache', a cache miss is recorded, and no fetch is
issued and nothing is written. -/
theorem cacheOnly_empty_cache (env : Env) (s : SWState)
    (hc : env.cached = none) :
    cacheOnly env s =
      (.error "Resource not in cache",
       { metrics := { s.metrics with
           cacheMisses := s.metrics.cacheMisses + 1 },
         writes := s.writes,
         fetches := s.fetches }) := by
  simp [cacheOnly, hc, recordCacheMiss]

/-- Witness for C5 at a concrete empty-cache environment. -/
theorem cacheOnly_empty_cache_witness :
    cacheOnly ⟨none, .ok ⟨200, "OK", "x"⟩⟩ ⟨⟨0, 0, 0, 0⟩, [], 0⟩ =
      (.error "Resource not in cache", ⟨⟨0, 1, 0, 0⟩, [], 0⟩) :=
  cacheOnly_empty_cache ⟨none, .ok ⟨200, "OK", "x"⟩⟩ ⟨⟨0, 0, 0, 0⟩, [], 0⟩ rfl

/-- C6: for a GET http(s) request whose strategy handler rejects, the
fetch listener responds with the synthetic 408 timeout response,
increments the error counter over the handler's final state, and never
lets the rejection escape the outer boundary. -/
theorem fetch_listener_converts_rejection (env : Env) (req : Request)
    (s : SWState) (e : String)
    (hm : req.method = "GET")
    (hp : strStartsWith (urlProtocol req.url) "http" = true)
    (hr : (handleRequest env req.url (getCacheStrategy req.url) s).1 =
      .error e) :
    (handleFetchEvent env req s).1 = some (.ok (some timeoutResponse)) ∧
    timeoutResponse.status = 408 ∧
    (handleFetchEvent env req s).2.metrics.errors =
      (handleRequest env req.url (getCacheStrategy req.url) s).2.metrics.errors + 1 ∧
    (∀ msg, (handleFetchEvent env req s).1 ≠ some (.error msg)) := by
  rcases hH : handleRequest env req.url (getCacheStrategy req.url) s with ⟨res, st⟩
  rw [hH] at hr
  simp only at hr
  subst hr
  refine ⟨?_, rfl, ?_, ?_⟩ <;>
    simp [handleFetchEvent, hm, hp, hH, recordError]

/-- Witness for C6: a GET https request with no matching pattern, empty
cache and failing network rejects inside network-first, and the listener
answers with the 408 response. -/
theorem fetch_listener_converts_rejection_witness :
    (handleFetchEvent ⟨none, .error "boom"⟩
      ⟨"GET", "https://example.org/data"⟩ ⟨⟨0, 0, 0, 0⟩, [], 0⟩).1 =
      some (.ok (some timeoutResponse)) :=
  (fetch_listener_converts_rejection ⟨none, .error "boom"⟩
    ⟨"GET", "https://example.org/data"⟩ ⟨⟨0, 0, 0, 0⟩, [], 0⟩ "boom"
    rfl (by decide) rfl).1

/-- C7 (against the claim): when caching the critical resource
'/index.html' fails, addAll over CRITICAL_RESOURCES rejects and the
error is recorded and skipWaiting is skipped — but the trailing catch
swallows the rejection, so the promise handed to waitUntil fulfills and
installation does not abort. -/
theorem install_failure_swallowed :
    addAll failingInstallEnv CRITICAL_RESOURCES = .error "Failed to fetch" ∧
    (installHandler failingInstallEnv).errorsRecorded = 1 ∧
    (installHandler failingInstallEnv).skipWaitingCalled = false ∧
    (installHandler failingInstallEnv).result = .ok () :=
  ⟨rfl, rfl, rfl, rfl⟩

/-- C8: after a cleanup pass an entry remains in the dynamic partition
iff it was there and is not expired; an entry is expired iff it has a
usable freshness timestamp strictly older than 7 days (maxAge); and an
entry with no usable timestamp is never expired, hence retained. -/
theorem performCacheCleanup_spec (parse : String → Option Int) (now : Int)
    (entries : List CacheEntry) (e : CacheEntry) :
    (e ∈ performCacheCleanup parse now entries ↔
      e ∈ entries ∧ isExpired parse now e = false) ∧
    (isExpired parse now e = true ↔
      ∃ t, freshnessTimestamp parse e = some t ∧ now - t > maxAge) ∧
    (freshnessTimestamp parse e = none → isExpired parse now e = false) := by
  refine ⟨?_, ?_, ?_⟩
  · simp [performCacheCleanup]
  · rcases h : freshnessTimestamp parse e with _ | t <;> simp [isExpired, h]
  · intro h
    simp [isExpired, h]

/-- Witness for C8: an entry with no date header survives a cleanup pass
and is not expired. -/
theorem performCacheCleanup_spec_witness :
    (⟨"/x", none⟩ : CacheEntry) ∈
      performCacheCleanup (fun _ => none) 0 [⟨"/x", none⟩] ∧
    isExpired (fun _ => none) 0 ⟨"/x", none⟩ = false :=
  ⟨((performCacheCleanup_spec (fun _ => none) 0 [⟨"/x", none⟩] ⟨"/x", none⟩).1).mpr
      ⟨List.mem_singleton.mpr rfl, rfl⟩,
   (performCacheCleanup_spec (fun _ => none) 0 [⟨"/x", none⟩] ⟨"/x", none⟩).2.2 rfl⟩

/-- C9: the reply to a prefetch over urls has exactly one record per url,
in input order: position i reports urls[i], success true with null error
when its cache add succeeded, success false with the failure message
otherwise. -/
theorem prefetchResources_spec (add : String → Except String Unit)
    (urls : List String) :
    (prefetchResources add urls).length = urls.length ∧
    ∀ i (h : i < urls.length),
      (prefetchResources add urls)[i]? =
        some (match add urls[i] with
          | .ok _ => { url := urls[i], success := true, error := none }
          | .error e => { url := urls[i], success := false, error := some e }) := by
  constructor
  · simp [prefetchResources]
  · intro i h
    simp [prefetchResources, List.getElem?_map, List.getElem?_eq_getElem h]

/-- Witness for C9: prefetching two urls where the second add fails gives
two records, the second reporting the failure message. -/
theorem prefetchResources_spec_witness :
    (prefetchResources prefetchAddEx ["/a.png", "/bad-url"]).length = 2 ∧
    (prefetchResources prefetchAddEx ["/a.png", "/bad-url"])[1]? =
      some ⟨"/bad-url", false, some "Failed to fetch"⟩ := by
  refine ⟨(prefetchResources_spec prefetchAddEx ["/a.png", "/bad-url"]).1, ?_⟩
  have h := (prefetchResources_spec prefetchAddEx ["/a.png", "/bad-url"]).2 1
    (by decide)
  simpa [prefetchAddEx] using h

/-- C10: a PREFETCH_RESOURCES message whose payload is absent, or whose
payload lacks a urls field, produces no reply on the message port at
all. -/
theorem prefetch_missing_urls_no_reply (env : MsgEnv)
    (payload : Option MessagePayload) :
    (payload = none → messageHandler env "PREFETCH_RESOURCES" payload = none) ∧
    (∀ p, payload = some p → p.urls = none →
      messageHandler env "PREFETCH_RESOURCES" payload = none) := by
  constructor
  · intro h
    subst h
    rfl
  · intro p hp hu
    subst hp
    simp [messageHandler, hu]

/-- Witness for C10: a PREFETCH_RESOURCES message with a payload carrying
no urls field gets no reply. -/
theorem prefetch_missing_urls_no_reply_witness :
    messageHandler ⟨⟨0, 0, 0, 0⟩, .ok (), fun _ => .ok ()⟩
      "PREFETCH_RESOURCES" (some ⟨none⟩) = none :=
  (prefetch_missing_urls_no_reply ⟨⟨0, 0, 0, 0⟩, .ok (), fun _ => .ok ()⟩
    (some ⟨none⟩)).2 ⟨none⟩ rfl rfl

end SW
